import Mathlib

/-!
Verification development for the graphical-entity core of a DXF library
(`ezdxf/entities/dxfgfx.py`): attribute schema registry (`acdb_entity`),
subclass tag codec, entity base behavior (`ocs`, `set_owner`,
capability-gated geometric operations) and the entity linking state machine
(`entity_linker`).  Shallow embedding: Python dicts become association
lists, exceptions become `Except`, in-place mutation becomes returning the
updated value, and the closure state of `entity_linker` becomes an explicit
state record threaded through a step function.
-/

namespace Ezdxf

/-- DXF format versions, ordered.  The source compares version strings
("AC1009" < "AC1015" < "AC1018" < "AC1021"); we keep only the numeric part,
which has the same order. -/
def DXF12 : Nat := 1009

def DXF2000 : Nat := 1015

def DXF2004 : Nat := 1018

def DXF2007 : Nat := 1021

/-- A raw DXF tag value: string, integer, or a 3-component vector
(numeric values that matter to the claims are integers; float precision is
out of scope of this embedding). -/
inductive TagValue where
  | s (v : String)
  | i (v : Int)
  | v3 (x y z : Int)
deriving DecidableEq, Repr

/-- One wire tag: group code plus value. -/
structure Tag where
  code : Int
  value : TagValue
deriving DecidableEq, Repr

/-- One attribute declaration of a subclass schema: wire group code,
optional default, optional-flag and minimum DXF version
(mirrors `DXFAttr`). -/
structure DXFAttr where
  code : Int
  default : Option TagValue := none
  optional : Bool := false
  dxfversion : Nat := DXF12
deriving DecidableEq, Repr

/-- A named subclass schema: subclass name and ordered attribute
declarations (mirrors `DefSubclass`). -/
structure DefSubclass where
  name : String
  attribs : List (String × DXFAttr)
deriving DecidableEq, Repr

/-- The `AcDbEntity` subclass schema, transcribed from `acdb_entity` in the
source in declaration order. -/
def acdb_entity : DefSubclass :=
  { name := "AcDbEntity"
    attribs := [
      ("layer", { code := 8, default := some (.s "0") }),
      ("linetype", { code := 6, default := some (.s "BYLAYER"), optional := true }),
      ("color", { code := 62, default := some (.i 256), optional := true }),
      ("paperspace", { code := 67, default := some (.i 0), optional := true }),
      ("lineweight", { code := 370, default := some (.i (-1)), optional := true, dxfversion := DXF2000 }),
      ("ltscale", { code := 48, default := some (.i 1), optional := true, dxfversion := DXF2000 }),
      ("invisible", { code := 60, default := some (.i 0), optional := true, dxfversion := DXF2000 }),
      ("true_color", { code := 420, optional := true, dxfversion := DXF2004 }),
      ("color_name", { code := 430, optional := true, dxfversion := DXF2004 }),
      ("transparency", { code := 440, optional := true, dxfversion := DXF2004 }),
      ("shadow_mode", { code := 284, optional := true, dxfversion := DXF2007 }),
      ("material_handle", { code := 347, optional := true, dxfversion := DXF2007 }),
      ("plotstyle_handle", { code := 390, optional := true, dxfversion := DXF2007 })]
  }

/-- An entity's attribute namespace (`entity.dxf`), modelled as an
association list from attribute name to value. -/
abbrev DXFNamespace := List (String × TagValue)

/-- Lookup `dxf.get(key)` without default: first binding of `key`, if any. -/
def ns_get? : DXFNamespace → String → Option TagValue
  | [], _ => none
  | (a, b) :: t, k => if a == k then some b else ns_get? t k

/-- Lookup `dxf.get(key, default)`. -/
def ns_getD (ns : DXFNamespace) (k : String) (d : TagValue) : TagValue :=
  (ns_get? ns k).getD d

/-- Test `dxf.hasattr(key)`. -/
def ns_hasattr (ns : DXFNamespace) (k : String) : Bool :=
  (ns_get? ns k).isSome

/-- Embedding of `dxf.discard(key)`: remove every binding of `key` (no error if absent). -/
def ns_discard : DXFNamespace → String → DXFNamespace
  | [], _ => []
  | (a, b) :: t, k => if a == k then ns_discard t k else (a, b) :: ns_discard t k

/-- Embedding of `dxf.key = value`: bind `key` to `value`, dropping any older binding. -/
def ns_set (ns : DXFNamespace) (k : String) (v : TagValue) : DXFNamespace :=
  (k, v) :: ns_discard ns k

/-- Errors raised by this core: `DXFStructureError` with its message, and
`DXFUnsupportedFeature` carrying the entity's DXF type name. -/
inductive DXFError where
  | DXFStructureError (msg : String)
  | DXFUnsupportedFeature (dxftype : String)
deriving DecidableEq, Repr

/-! ## Entity linking state machine (`entity_linker`) -/

/-- The projection of an entity that `entity_linker_` inspects: its DXF type
name, the raw `attribs_follow` flag (`none` when the attribute is absent)
and the handle (`none` when no handle is assigned).  `id` distinguishes
entities of equal shape in a stream. -/
structure Ent where
  id : Nat
  dxftype : String
  attribs_follow : Option Int := none
  handle : Option String := none
deriving DecidableEq, Repr

/-- The `LINKED_ENTITIES` table: parent-opening DXF types and the child
type each expects. -/
def LINKED_ENTITIES : List (String × String) :=
  [("INSERT", "ATTRIB"), ("POLYLINE", "VERTEX")]

/-- Test `dxftype in LINKED_ENTITIES` plus the `LINKED_ENTITIES[dxftype]`
lookup. -/
def linkedLookup (t : String) : Option String :=
  (LINKED_ENTITIES.find? (fun p => p.1 == t)).map (·.2)

/-- The closure state of `entity_linker`: open parent (`main_entity`),
preceding entity (`prev`) and the expected child type. -/
structure LinkerState where
  main_entity : Option Ent
  prev : Option Ent
  expected : String
deriving DecidableEq, Repr

/-- Initial linker state: no open parent, no previous entity, empty
expected type. -/
def initLinker : LinkerState := ⟨none, none, ""⟩

/-- Side effects of one linker step: `main_entity.link_seqend(entity)` or
`parent.link_entity(entity)` calls, recorded as events. -/
inductive LinkEvent where
  | link_seqend (parent child : Ent)
  | link_entity (parent child : Ent)
deriving DecidableEq, Repr

/-- One step of `entity_linker_`.  Returns the boolean the source returns
(`True` when the entity was consumed as a linked/attached child), the link
calls performed, and the updated closure state; raising becomes `.error`.
On error no state is returned, matching the source where the exception
propagates before `prev` is reassigned. -/
def entity_linker_ (st : LinkerState) (entity : Ent) :
    Except DXFError (Bool × List LinkEvent × LinkerState) :=
  let dxftype := entity.dxftype
  match st.main_entity with
  | some main =>
      if dxftype == "SEQEND" then
        .ok (true, [.link_seqend main entity], ⟨none, some entity, st.expected⟩)
      else if dxftype == st.expected then
        .ok (true, [.link_entity main entity], ⟨some main, some entity, st.expected⟩)
      else
        .error (.DXFStructureError ("expected DXF entity " ++ dxftype ++ " or SEQEND"))
  | none =>
      match linkedLookup dxftype with
      | some expectedChild =>
          if dxftype == "INSERT" && (entity.attribs_follow.getD 0 == 0) then
            .ok (false, [], ⟨none, some entity, st.expected⟩)
          else
            .ok (false, [], ⟨some entity, some entity, expectedChild⟩)
      | none =>
          if dxftype == "MTEXT" && entity.handle.isNone then
            match st.prev with
            | some p =>
                .ok (true, [.link_entity p entity], ⟨none, some entity, st.expected⟩)
            | none =>
                .error (.DXFStructureError "Attached MTEXT entity without a preceding entity.")
          else
            .ok (false, [], ⟨none, some entity, st.expected⟩)

/-- Fold `entity_linker_` over a stream, collecting the per-entity booleans
and all link events in order. -/
def run_linker : LinkerState → List Ent →
    Except DXFError (List Bool × List LinkEvent × LinkerState)
  | st, [] => .ok ([], [], st)
  | st, e :: es =>
      match entity_linker_ st e with
      | .error err => .error err
      | .ok (b, evs, st') =>
          match run_linker st' es with
          | .error err => .error err
          | .ok (bs, evs', stf) => .ok (b :: bs, evs ++ evs', stf)

/-! ## Substring test for error-message claims -/

/-- Test `strStarts p s`: the char list `p` starts the char list `s`. -/
def strStarts : List Char → List Char → Bool
  | [], _ => true
  | _ :: _, [] => false
  | a :: p, b :: s => a == b && strStarts p s

/-- Test `strHas p s`: the char list `p` occurs contiguously inside `s`. -/
def strHas (p : List Char) : List Char → Bool
  | [] => strStarts p []
  | b :: t => strStarts p (b :: t) || strHas p t

/-- An error message names a string when that string occurs contiguously
inside the message. -/
def mentions (needle hay : String) : Bool :=
  strHas needle.data hay.data

/-! ## Subclass tag codec -/

/-- Modelled from the spec: `SubclassProcessor.load_dxfattribs_into_namespace`
lives in the entity base module, which is not among the provided sources.
Per the spec's decode contract, for each input tag the slot is looked up in
the subclass schema; if found the value is stored under the attribute name,
if not found the tag is accumulated as an unprocessed tag rather than
failing.  Returns the updated namespace and the unprocessed tags in arrival
order; the function is total (decoding never raises for an unknown tag). -/
def load_dxfattribs_into_namespace (dxf : DXFNamespace) (subclass : DefSubclass) :
    List Tag → DXFNamespace × List Tag
  | [] => (dxf, [])
  | t :: ts =>
      match subclass.attribs.find? (fun p => p.2.code == t.code) with
      | some nv =>
          load_dxfattribs_into_namespace (ns_set dxf nv.1 t.value) subclass ts
      | none =>
          let r := load_dxfattribs_into_namespace dxf subclass ts
          (r.1, t :: r.2)

/-- The part of a `SubclassProcessor` that `DXFGraphic.load_dxf_attribs`
inspects: the R12 flag and the raw tags of the `AcDbEntity` subclass. -/
structure SubclassProcessor where
  r12 : Bool
  subclass_tags : List Tag
deriving DecidableEq, Repr

/-- One `log_unprocessed_tags(tags, subclass=...)` call. -/
structure LogCall where
  tags : List Tag
  subclass : String
deriving DecidableEq, Repr

/-- Embedding of `DXFGraphic.load_dxf_attribs`: run the codec on the `AcDbEntity`
subclass tags and report leftover tags unless the file is R12.  The base
class pass done by `super()` is external; its result is the `dxf` argument.
Returns the populated namespace and the diagnostics calls made. -/
def load_dxf_attribs (dxf : DXFNamespace) (processor : Option SubclassProcessor) :
    DXFNamespace × List LogCall :=
  match processor with
  | none => (dxf, [])
  | some proc =>
      let r := load_dxfattribs_into_namespace dxf acdb_entity proc.subclass_tags
      if !r.2.isEmpty && !proc.r12 then
        (r.1, [⟨r.2, acdb_entity.name⟩])
      else
        (r.1, [])

/-- The `SUBCLASS_MARKER` group code. -/
def SUBCLASS_MARKER : Int := 100

/-- Modelled from the spec: `DXFNamespace.export_dxf_attribs` /
`export_dxf_attribute` live in the entity base module, which is not among
the provided sources.  Per the spec's encode contract, one attribute is
skipped when its value is absent and it is optional, skipped when its
minimum version exceeds the target version, and otherwise emitted as a
(code, value) tag; a required absent attribute falls back to its declared
default. -/
def export_one (dxf : DXFNamespace) (dxfversion : Nat) (name : String) : Option Tag :=
  match acdb_entity.attribs.find? (fun p => p.1 == name) with
  | none => none
  | some nv =>
      if dxfversion < nv.2.dxfversion then none
      else
        match ns_get? dxf name with
        | some v => some ⟨nv.2.code, v⟩
        | none =>
            if nv.2.optional then none
            else nv.2.default.map (fun d => ⟨nv.2.code, d⟩)

/-- Modelled from the spec: `export_dxf_attribs` exports the named
attributes in the order given, each through `export_one`. -/
def export_dxf_attribs (dxf : DXFNamespace) (dxfversion : Nat)
    (names : List String) : List Tag :=
  names.filterMap (export_one dxf dxfversion)

/-- The fixed export order hard-coded in `DXFGraphic.export_acdb_entity`. -/
def EXPORT_ORDER : List String :=
  ["layer", "linetype", "material_handle", "color", "paperspace", "lineweight",
   "ltscale", "true_color", "color_name", "transparency", "plotstyle_handle",
   "shadow_mode"]

/-- Embedding of `DXFGraphic.export_acdb_entity`: for versions beyond DXF12 write the
subclass marker tag `(100, "AcDbEntity")`, then export the attributes in
the hard-coded order.  The produced tags are returned in emission order
(the tag writer is modelled as the output list). -/
def export_acdb_entity (dxf : DXFNamespace) (dxfversion : Nat) : List Tag :=
  (if DXF12 < dxfversion then [⟨SUBCLASS_MARKER, .s acdb_entity.name⟩] else [])
    ++ export_dxf_attribs dxf dxfversion EXPORT_ORDER

/-! ## Capability-gated geometric operations -/

/-- A user coordinate system; its geometry is external math, irrelevant to
the capability-negotiation contract. -/
structure UCS where
deriving DecidableEq, Repr

/-- A 4x4 transformation matrix; external math, opaque here. -/
structure Matrix44 where
deriving DecidableEq, Repr

/-- The projection of a graphical entity the base-class geometric
operations inspect: its DXF type name and its attribute namespace. -/
structure GEnt where
  DXFTYPE : String
  dxf : DXFNamespace
deriving DecidableEq, Repr

/-- Embedding of `DXFGraphic.translate`: the base class supports no translation; unless
`ignore` is set it raises `DXFUnsupportedFeature(self.DXFTYPE)`.  The
returned entity is the receiver, unchanged. -/
def translate (e : GEnt) (_direction : TagValue) (ignore : Bool) : Except DXFError GEnt :=
  if !ignore then .error (.DXFUnsupportedFeature e.DXFTYPE) else .ok e

/-- Embedding of `DXFGraphic.scale`: base-class uniform scaling is unsupported. -/
def scale (e : GEnt) (_factor : Int) (ignore : Bool) : Except DXFError GEnt :=
  if !ignore then .error (.DXFUnsupportedFeature e.DXFTYPE) else .ok e

/-- Embedding of `DXFGraphic.scale_xyz`: base-class non-uniform scaling is unsupported. -/
def scale_xyz (e : GEnt) (_sx _sy _sz : Int) (ignore : Bool) : Except DXFError GEnt :=
  if !ignore then .error (.DXFUnsupportedFeature e.DXFTYPE) else .ok e

/-- Embedding of `DXFGraphic.rotate`: base-class rotation is unsupported. -/
def rotate (e : GEnt) (_angle : Int) (_ucs : Option UCS) (ignore : Bool) :
    Except DXFError GEnt :=
  if !ignore then .error (.DXFUnsupportedFeature e.DXFTYPE) else .ok e

/-- Embedding of `DXFGraphic.transform`: base-class matrix transform is unsupported. -/
def transform (e : GEnt) (_matrix : Matrix44) (ignore : Bool) : Except DXFError GEnt :=
  if !ignore then .error (.DXFUnsupportedFeature e.DXFTYPE) else .ok e

/-- Embedding of `DXFGraphic.to_wsc`: base-class WCS transformation is unsupported. -/
def to_wsc (e : GEnt) (_ucs : UCS) (ignore : Bool) : Except DXFError GEnt :=
  if !ignore then .error (.DXFUnsupportedFeature e.DXFTYPE) else .ok e

/-! ## Ownership transfer (`set_owner`) -/

/-- An entity together with its linked children (VERTEX/ATTRIB style) and
attached children (handle-less MTEXT style), as a tree. -/
inductive TEnt where
  | mk (dxf : DXFNamespace) (linked : List TEnt) (attached : List TEnt)

/-- Attribute namespace of a tree entity. -/
def TEnt.dxf : TEnt → DXFNamespace
  | .mk d _ _ => d

/-- Linked children of a tree entity (`linked_entities()`). -/
def TEnt.linked : TEnt → List TEnt
  | .mk _ l _ => l

/-- Attached children of a tree entity (`attached_entities()`). -/
def TEnt.attached : TEnt → List TEnt
  | .mk _ _ a => a

mutual
/-- Embedding of `DXFGraphic.set_owner`: assign the owner handle, set the paperspace
attribute when the flag is nonzero and discard it when it is zero, then
recurse into every linked entity.  In-place mutation is modelled by
returning the updated entity. -/
def set_owner : TEnt → String → Int → TEnt
  | .mk dxf linked attached, owner, paperspace =>
      let dxf := ns_set dxf "owner" (.s owner)
      let dxf :=
        if paperspace ≠ 0 then ns_set dxf "paperspace" (.i paperspace)
        else ns_discard dxf "paperspace"
      .mk dxf (set_owner_list linked owner paperspace) attached

/-- The `for e in self.linked_entities(): e.set_owner(owner, paperspace)`
loop. -/
def set_owner_list : List TEnt → String → Int → List TEnt
  | [], _, _ => []
  | e :: es, owner, paperspace =>
      set_owner e owner paperspace :: set_owner_list es owner paperspace
end

/-! ## Object coordinate system (`ocs`) -/

/-- An object coordinate system; the source builds it (in external math
code) from the extrusion vector, which is all we record. -/
structure OCS where
  extrusion : TagValue
deriving DecidableEq, Repr

/-- Modelled from the spec: whether an entity kind declares an `extrusion`
attribute (`dxf.is_supported`, decided by the attribute definitions in the
entity base module, not among the provided sources) is carried as a
per-entity capability flag. -/
structure OcsEnt where
  supports_extrusion : Bool
  dxf : DXFNamespace
deriving DecidableEq, Repr

/-- Embedding of `DXFGraphic.ocs`: when the entity kind supports `extrusion`, build the
OCS from the stored extrusion or the default `(0, 0, 1)`; otherwise return
`none`. -/
def ocs (e : OcsEnt) : Option OCS :=
  if e.supports_extrusion then
    some ⟨ns_getD e.dxf "extrusion" (.v3 0 0 1)⟩
  else none

/-! ## Namespace lemmas -/

theorem ns_get?_set_same (ns : DXFNamespace) (k : String) (v : TagValue) :
    ns_get? (ns_set ns k v) k = some v := by
  simp [ns_set, ns_get?]

theorem ns_get?_discard_self (ns : DXFNamespace) (k : String) :
    ns_get? (ns_discard ns k) k = none := by
  induction ns with
  | nil => rfl
  | cons a t ih =>
      obtain ⟨n, v⟩ := a
      by_cases hn : n = k
      · simp [ns_discard, hn, ih]
      · simp [ns_discard, ns_get?, hn, ih]

theorem ns_get?_discard_other (ns : DXFNamespace) (k k' : String) (h : k' ≠ k) :
    ns_get? (ns_discard ns k) k' = ns_get? ns k' := by
  induction ns with
  | nil => rfl
  | cons a t ih =>
      obtain ⟨n, v⟩ := a
      by_cases hn : n = k
      · subst hn
        have : ¬ (n = k') := fun hc => h (hc ▸ rfl)
        simp [ns_discard, ns_get?, this, ih]
      · simp [ns_discard, ns_get?, hn, ih]

theorem ns_get?_set_other (ns : DXFNamespace) (k k' : String) (v : TagValue)
    (h : k' ≠ k) : ns_get? (ns_set ns k v) k' = ns_get? ns k' := by
  have : ¬ (k = k') := fun hc => h hc.symm
  simp [ns_set, ns_get?, this, ns_get?_discard_other ns k k' h]

/-! ## Substring lemmas -/

theorem strStarts_self_append (p r : List Char) : strStarts p (p ++ r) = true := by
  induction p with
  | nil => rfl
  | cons a t ih => simp [strStarts, ih]

theorem strHas_of_starts (p s : List Char) (h : strStarts p s = true) :
    strHas p s = true := by
  cases s with
  | nil => simpa [strHas] using h
  | cons b t => simp [strHas, h]

theorem strHas_append_left (l p r : List Char) (h : strHas p r = true) :
    strHas p (l ++ r) = true := by
  induction l with
  | nil => simpa using h
  | cons b t ih =>
      simp only [List.cons_append, strHas, Bool.or_eq_true]
      exact Or.inr ih

/-- A string occurs in any concatenation that literally includes it. -/
theorem mentions_mid (pre s post : String) : mentions s (pre ++ s ++ post) = true := by
  show strHas s.data (pre ++ s ++ post).data = true
  rw [String.data_append, String.data_append, List.append_assoc]
  exact strHas_append_left _ _ _
    (strHas_of_starts _ _ (strStarts_self_append s.data post.data))

/-! ## `set_owner` recursion lemma -/

theorem set_owner_list_eq_map (es : List TEnt) (o : String) (p : Int) :
    set_owner_list es o p = es.map (fun c => set_owner c o p) := by
  induction es with
  | nil => rfl
  | cons e t ih => simp [set_owner_list, ih]

/-! ## Claims about the entity linking state machine -/

/-- C1 (counterexample): with an open INSERT parent expecting ATTRIB, a LINE
entity raises `DXFStructureError`, but the error message does not name the
expected child kind ATTRIB: the source formats the offending `dxftype` into
the "expected" slot of the message. -/
theorem c1_counterexample :
    entity_linker_
        ⟨some ⟨0, "INSERT", some 1, some "A1"⟩, some ⟨0, "INSERT", some 1, some "A1"⟩, "ATTRIB"⟩
        ⟨1, "LINE", none, some "A2"⟩
      = .error (.DXFStructureError "expected DXF entity LINE or SEQEND")
    ∧ mentions "ATTRIB" "expected DXF entity LINE or SEQEND" = false := by
  exact ⟨rfl, by decide⟩

/-- C1 (amended): whenever a parent is open and the arriving entity's kind
is neither the expected child kind nor SEQEND, the linker raises a
`DXFStructureError` whose message names the offending entity kind and the
sentinel SEQEND (the expected child kind itself does not appear in the
message). -/
theorem c1_amended (st : LinkerState) (main entity : Ent)
    (hm : st.main_entity = some main)
    (h1 : entity.dxftype ≠ "SEQEND") (h2 : entity.dxftype ≠ st.expected) :
    entity_linker_ st entity
      = .error (.DXFStructureError
          ("expected DXF entity " ++ entity.dxftype ++ " or SEQEND"))
    ∧ mentions entity.dxftype
        ("expected DXF entity " ++ entity.dxftype ++ " or SEQEND") = true
    ∧ mentions "SEQEND"
        ("expected DXF entity " ++ entity.dxftype ++ " or SEQEND") = true := by
  refine ⟨?_, ?_, ?_⟩
  · simp [entity_linker_, hm, h1, h2]
  · exact mentions_mid "expected DXF entity " entity.dxftype " or SEQEND"
  · have h := mentions_mid ("expected DXF entity " ++ entity.dxftype ++ " or ")
      "SEQEND" ""
    have he : ("expected DXF entity " ++ entity.dxftype ++ " or ") ++ "SEQEND" ++ ""
        = "expected DXF entity " ++ entity.dxftype ++ " or SEQEND" := by
      apply String.ext
      simp [String.data_append]
    rwa [he] at h

/-- C1 (witness for the amended theorem): concrete instance with an open
INSERT parent expecting ATTRIB and an arriving LINE entity. -/
theorem c1_amended_witness :
    entity_linker_
        ⟨some ⟨0, "INSERT", some 1, some "A1"⟩, some ⟨0, "INSERT", some 1, some "A1"⟩, "ATTRIB"⟩
        ⟨1, "LINE", none, some "A2"⟩
      = .error (.DXFStructureError "expected DXF entity LINE or SEQEND")
    ∧ mentions "LINE" "expected DXF entity LINE or SEQEND" = true
    ∧ mentions "SEQEND" "expected DXF entity LINE or SEQEND" = true :=
  c1_amended
    ⟨some ⟨0, "INSERT", some 1, some "A1"⟩, some ⟨0, "INSERT", some 1, some "A1"⟩, "ATTRIB"⟩
    ⟨0, "INSERT", some 1, some "A1"⟩ ⟨1, "LINE", none, some "A2"⟩
    rfl (by decide) (by decide)

/-- C2: Scenario A — feeding [INSERT(attribs_follow set), ATTRIB, ATTRIB,
SEQEND] from the initial state returns false for the INSERT and true for
both ATTRIBs and the SEQEND; the ATTRIBs are linked to the INSERT via
`link_entity` in arrival order, the SEQEND is registered via `link_seqend`,
and the final state has no open parent. -/
theorem c2_scenario_a :
    run_linker initLinker
      [⟨0, "INSERT", some 1, some "H0"⟩, ⟨1, "ATTRIB", none, some "H1"⟩,
       ⟨2, "ATTRIB", none, some "H2"⟩, ⟨3, "SEQEND", none, some "H3"⟩]
    = .ok ([false, true, true, true],
        [.link_entity ⟨0, "INSERT", some 1, some "H0"⟩ ⟨1, "ATTRIB", none, some "H1"⟩,
         .link_entity ⟨0, "INSERT", some 1, some "H0"⟩ ⟨2, "ATTRIB", none, some "H2"⟩,
         .link_seqend ⟨0, "INSERT", some 1, some "H0"⟩ ⟨3, "SEQEND", none, some "H3"⟩],
        ⟨none, some ⟨3, "SEQEND", none, some "H3"⟩, "ATTRIB"⟩) := by
  rfl

/-- C3: an INSERT whose `attribs_follow` flag is absent or zero never opens
a parent state: it is returned top-level (false), and an ATTRIB fed right
after it is also returned top-level with no link events. -/
theorem c3_flagless_insert (st : LinkerState) (ins att : Ent)
    (hm : st.main_entity = none) (hins : ins.dxftype = "INSERT")
    (hflag : ins.attribs_follow.getD 0 = 0) (hatt : att.dxftype = "ATTRIB") :
    entity_linker_ st ins = .ok (false, [], ⟨none, some ins, st.expected⟩)
    ∧ entity_linker_ ⟨none, some ins, st.expected⟩ att
        = .ok (false, [], ⟨none, some att, st.expected⟩) := by
  constructor
  · simp [entity_linker_, hm, hins, linkedLookup, LINKED_ENTITIES, hflag]
  · simp [entity_linker_, hatt, linkedLookup, LINKED_ENTITIES]

/-- C3 (witness): concrete flagless INSERT followed by an ATTRIB from the
initial state. -/
theorem c3_witness :
    entity_linker_ initLinker ⟨0, "INSERT", none, some "H0"⟩
      = .ok (false, [], ⟨none, some ⟨0, "INSERT", none, some "H0"⟩, ""⟩)
    ∧ entity_linker_ ⟨none, some ⟨0, "INSERT", none, some "H0"⟩, ""⟩
        ⟨1, "ATTRIB", none, some "H1"⟩
      = .ok (false, [], ⟨none, some ⟨1, "ATTRIB", none, some "H1"⟩, ""⟩) :=
  c3_flagless_insert initLinker ⟨0, "INSERT", none, some "H0"⟩
    ⟨1, "ATTRIB", none, some "H1"⟩ rfl rfl rfl rfl

/-- C6: with no open parent, a handle-less MTEXT is linked to the preceding
entity via `link_entity` and consumed (true); with no preceding entity the
linker raises the structural error for an attached MTEXT without a host. -/
theorem c6_attached_mtext (st : LinkerState) (entity : Ent)
    (hm : st.main_entity = none) (ht : entity.dxftype = "MTEXT")
    (hh : entity.handle = none) :
    (∀ p, st.prev = some p →
        entity_linker_ st entity
          = .ok (true, [.link_entity p entity], ⟨none, some entity, st.expected⟩))
    ∧ (st.prev = none →
        entity_linker_ st entity
          = .error (.DXFStructureError
              "Attached MTEXT entity without a preceding entity.")) := by
  constructor
  · intro p hp
    simp [entity_linker_, hm, ht, hh, hp, linkedLookup, LINKED_ENTITIES]
  · intro hp
    simp [entity_linker_, hm, ht, hh, hp, linkedLookup, LINKED_ENTITIES]

/-- C6 (witness): a handle-less MTEXT after a LINE is attached to the LINE;
a handle-less MTEXT from the initial state raises the structural error. -/
theorem c6_witness :
    entity_linker_ ⟨none, some ⟨0, "LINE", none, some "H0"⟩, ""⟩
        ⟨1, "MTEXT", none, none⟩
      = .ok (true, [.link_entity ⟨0, "LINE", none, some "H0"⟩ ⟨1, "MTEXT", none, none⟩],
          ⟨none, some ⟨1, "MTEXT", none, none⟩, ""⟩)
    ∧ entity_linker_ initLinker ⟨0, "MTEXT", none, none⟩
      = .error (.DXFStructureError "Attached MTEXT entity without a preceding entity.") :=
  ⟨(c6_attached_mtext ⟨none, some ⟨0, "LINE", none, some "H0"⟩, ""⟩
      ⟨1, "MTEXT", none, none⟩ rfl rfl rfl).1 ⟨0, "LINE", none, some "H0"⟩ rfl,
   (c6_attached_mtext initLinker ⟨0, "MTEXT", none, none⟩ rfl rfl rfl).2 rfl⟩

/-- C7: with no open parent, a SEQEND, a stand-alone ATTRIB or a stand-alone
VERTEX does not raise: it falls through and is returned as an ordinary
top-level entity (false) with no link events. -/
theorem c7_lenient_toplevel (st : LinkerState) (entity : Ent)
    (hm : st.main_entity = none)
    (ht : entity.dxftype = "SEQEND" ∨ entity.dxftype = "ATTRIB"
        ∨ entity.dxftype = "VERTEX") :
    entity_linker_ st entity = .ok (false, [], ⟨none, some entity, st.expected⟩) := by
  rcases ht with h | h | h <;>
    simp [entity_linker_, hm, h, linkedLookup, LINKED_ENTITIES]

/-- C7 (witness): a SEQEND fed from the initial state is returned top-level
without an error. -/
theorem c7_witness :
    entity_linker_ initLinker ⟨0, "SEQEND", none, some "H0"⟩
      = .ok (false, [], ⟨none, some ⟨0, "SEQEND", none, some "H0"⟩, ""⟩) :=
  c7_lenient_toplevel initLinker ⟨0, "SEQEND", none, some "H0"⟩ rfl (Or.inl rfl)

/-! ## Claims about entity base behavior -/

/-- C8: every capability-gated geometric operation of the base entity
(translate, scale, scale_xyz, rotate, transform, to_wsc), called with
`ignore = false`, fails with `DXFUnsupportedFeature` naming the entity's
DXF type; called with `ignore = true` it returns without error and leaves
the entity unchanged. -/
theorem c8_unsupported_ops (e : GEnt) (d : TagValue) (f sx sy sz a : Int)
    (u : Option UCS) (u2 : UCS) (m : Matrix44) :
    translate e d false = .error (.DXFUnsupportedFeature e.DXFTYPE)
    ∧ translate e d true = .ok e
    ∧ scale e f false = .error (.DXFUnsupportedFeature e.DXFTYPE)
    ∧ scale e f true = .ok e
    ∧ scale_xyz e sx sy sz false = .error (.DXFUnsupportedFeature e.DXFTYPE)
    ∧ scale_xyz e sx sy sz true = .ok e
    ∧ rotate e a u false = .error (.DXFUnsupportedFeature e.DXFTYPE)
    ∧ rotate e a u true = .ok e
    ∧ transform e m false = .error (.DXFUnsupportedFeature e.DXFTYPE)
    ∧ transform e m true = .ok e
    ∧ to_wsc e u2 false = .error (.DXFUnsupportedFeature e.DXFTYPE)
    ∧ to_wsc e u2 true = .ok e := by
  simp [translate, scale, scale_xyz, rotate, transform, to_wsc]

/-- C9: `set_owner` rebinds the owner handle, sets the paperspace attribute
when the flag is nonzero and discards it when the flag is zero, applies the
identical reassignment to every linked child, and leaves attached children
and every other attribute unchanged. -/
theorem c9_set_owner (e : TEnt) (owner : String) (paperspace : Int) :
    ns_get? (set_owner e owner paperspace).dxf "owner" = some (.s owner)
    ∧ (paperspace ≠ 0 →
        ns_get? (set_owner e owner paperspace).dxf "paperspace" = some (.i paperspace))
    ∧ (paperspace = 0 →
        ns_hasattr (set_owner e owner paperspace).dxf "paperspace" = false)
    ∧ (set_owner e owner paperspace).linked
        = e.linked.map (fun c => set_owner c owner paperspace)
    ∧ (set_owner e owner paperspace).attached = e.attached
    ∧ ∀ k, k ≠ "owner" → k ≠ "paperspace" →
        ns_get? (set_owner e owner paperspace).dxf k = ns_get? e.dxf k := by
  obtain ⟨dxf, linked, attached⟩ := e
  by_cases hp : paperspace = 0
  · subst hp
    refine ⟨?_, ?_, ?_, ?_, ?_, ?_⟩
    · simp only [set_owner, TEnt.dxf]
      rw [if_neg (fun h => h rfl),
        ns_get?_discard_other _ _ _ (by decide), ns_get?_set_same]
    · intro h; exact absurd rfl h
    · intro _
      simp only [set_owner, TEnt.dxf, ns_hasattr]
      rw [if_neg (fun h => h rfl), ns_get?_discard_self]
      rfl
    · simp [set_owner, TEnt.linked, set_owner_list_eq_map]
    · simp [set_owner, TEnt.attached]
    · intro k hko hkp
      simp only [set_owner, TEnt.dxf]
      rw [if_neg (fun h => h rfl),
        ns_get?_discard_other _ _ _ hkp, ns_get?_set_other _ _ _ _ hko]
  · refine ⟨?_, ?_, ?_, ?_, ?_, ?_⟩
    · simp only [set_owner, TEnt.dxf, if_pos hp]
      rw [ns_get?_set_other _ _ _ _ (by decide), ns_get?_set_same]
    · intro _
      simp only [set_owner, TEnt.dxf, if_pos hp]
      rw [ns_get?_set_same]
    · intro h; exact absurd h hp
    · simp [set_owner, TEnt.linked, set_owner_list_eq_map]
    · simp [set_owner, TEnt.attached]
    · intro k hko hkp
      simp only [set_owner, TEnt.dxf, if_pos hp]
      rw [ns_get?_set_other _ _ _ _ hkp, ns_get?_set_other _ _ _ _ hko]

/-- C9 (witness): Scenario E — re-owning a parent that has two linked
children with flag 0 rewrites the parent's owner, clears its paperspace
attribute, recurses into both children identically, keeps attached children,
and keeps the unrelated `layer` attribute. -/
theorem c9_witness :
    ns_get? (set_owner
        (.mk [("owner", .s "old"), ("paperspace", .i 1), ("layer", .s "0")]
          [.mk [("owner", .s "old")] [] [], .mk [("owner", .s "old")] [] []]
          [.mk [] [] []])
        "newOwner" 0).dxf "owner" = some (.s "newOwner")
    ∧ ns_hasattr (set_owner
        (.mk [("owner", .s "old"), ("paperspace", .i 1), ("layer", .s "0")]
          [.mk [("owner", .s "old")] [] [], .mk [("owner", .s "old")] [] []]
          [.mk [] [] []])
        "newOwner" 0).dxf "paperspace" = false
    ∧ (set_owner
        (.mk [("owner", .s "old"), ("paperspace", .i 1), ("layer", .s "0")]
          [.mk [("owner", .s "old")] [] [], .mk [("owner", .s "old")] [] []]
          [.mk [] [] []])
        "newOwner" 0).linked
      = [set_owner (.mk [("owner", .s "old")] [] []) "newOwner" 0,
         set_owner (.mk [("owner", .s "old")] [] []) "newOwner" 0]
    ∧ ns_get? (set_owner (.mk [("owner", .s "old")] [] []) "newOwner" 0).dxf "owner"
      = some (.s "newOwner")
    ∧ ns_get? (set_owner
        (.mk [("owner", .s "old"), ("paperspace", .i 1), ("layer", .s "0")]
          [.mk [("owner", .s "old")] [] [], .mk [("owner", .s "old")] [] []]
          [.mk [] [] []])
        "newOwner" 0).dxf "layer" = some (.s "0") :=
  ⟨(c9_set_owner _ "newOwner" 0).1,
   (c9_set_owner _ "newOwner" 0).2.2.1 rfl,
   (c9_set_owner
      (.mk [("owner", .s "old"), ("paperspace", .i 1), ("layer", .s "0")]
        [.mk [("owner", .s "old")] [] [], .mk [("owner", .s "old")] [] []]
        [.mk [] [] []]) "newOwner" 0).2.2.2.1,
   (c9_set_owner (.mk [("owner", .s "old")] [] []) "newOwner" 0).1,
   (c9_set_owner _ "newOwner" 0).2.2.2.2.2 "layer" (by decide) (by decide)⟩

/-- C10: when an entity kind supports the `extrusion` attribute but the
value is unset, `ocs` returns the OCS built from the default extrusion
(0, 0, 1); `ocs` returns `none` exactly for kinds without extrusion
support. -/
theorem c10_ocs (e : OcsEnt) :
    (e.supports_extrusion = true → ns_hasattr e.dxf "extrusion" = false →
        ocs e = some ⟨.v3 0 0 1⟩)
    ∧ (ocs e = none ↔ e.supports_extrusion = false) := by
  constructor
  · intro hs hh
    cases hg : ns_get? e.dxf "extrusion" with
    | some v => simp [ns_hasattr, hg] at hh
    | none => simp [ocs, hs, ns_getD, hg]
  · constructor
    · intro h
      by_contra hs
      rw [Bool.not_eq_false] at hs
      simp [ocs, hs] at h
    · intro hs
      simp [ocs, hs]

/-- C10 (witness): an extrusion-capable entity with an empty namespace gets
the default OCS; an entity without extrusion support gets `none`. -/
theorem c10_witness :
    ocs ⟨true, []⟩ = some ⟨.v3 0 0 1⟩ ∧ ocs ⟨false, []⟩ = none :=
  ⟨(c10_ocs ⟨true, []⟩).1 rfl rfl, (c10_ocs ⟨false, []⟩).2.mpr rfl⟩

/-! ## Claims about the subclass tag codec -/

theorem unprocessed_mem (subclass : DefSubclass) (tags : List Tag) (t : Tag)
    (ht : t ∈ tags)
    (hn : subclass.attribs.find? (fun p => p.2.code == t.code) = none) :
    ∀ dxf, t ∈ (load_dxfattribs_into_namespace dxf subclass tags).2 := by
  induction tags with
  | nil => cases ht
  | cons a rest ih =>
      intro dxf
      rcases List.mem_cons.mp ht with h | h
      · subst h
        simp only [load_dxfattribs_into_namespace, hn]
        exact List.mem_cons_self _ _
      · cases hf : subclass.attribs.find? (fun p => p.2.code == a.code) with
        | some nv =>
            simp only [load_dxfattribs_into_namespace, hf]
            exact ih h _
        | none =>
            simp only [load_dxfattribs_into_namespace, hf]
            exact List.mem_cons_of_mem _ (ih h _)

/-- C4 (counterexample): a tag with the unknown group code 999 is left
unprocessed by the codec, yet under R12 `load_dxf_attribs` makes no
`log_unprocessed_tags` call at all: the leftover tag is silently dropped,
refuting "reported ... for every format version". -/
theorem c4_counterexample :
    (load_dxfattribs_into_namespace [] acdb_entity [⟨999, .i 7⟩]).2 = [⟨999, .i 7⟩]
    ∧ (load_dxf_attribs [] (some ⟨true, [⟨999, .i 7⟩]⟩)).2 = [] := by
  constructor <;> rfl

/-- C4 (amended): decoding never fails (the codec is a total function), and
for every format version other than R12 every tag whose group code is not
declared in the subclass schema ends up in a `log_unprocessed_tags` call for
subclass "AcDbEntity"; under R12 leftover tags are dropped without a
report. -/
theorem c4_amended (dxf : DXFNamespace) (proc : SubclassProcessor) (t : Tag)
    (hr : proc.r12 = false) (ht : t ∈ proc.subclass_tags)
    (hn : acdb_entity.attribs.find? (fun p => p.2.code == t.code) = none) :
    ∃ lc ∈ (load_dxf_attribs dxf (some proc)).2,
      t ∈ lc.tags ∧ lc.subclass = "AcDbEntity" := by
  have hmem := unprocessed_mem acdb_entity proc.subclass_tags t ht hn dxf
  have hne : ((load_dxfattribs_into_namespace dxf acdb_entity
      proc.subclass_tags).2).isEmpty = false := by
    cases hE : (load_dxfattribs_into_namespace dxf acdb_entity proc.subclass_tags).2 with
    | nil => rw [hE] at hmem; cases hmem
    | cons x xs => rfl
  refine ⟨⟨(load_dxfattribs_into_namespace dxf acdb_entity proc.subclass_tags).2,
      acdb_entity.name⟩, ?_, hmem, rfl⟩
  simp [load_dxf_attribs, hr, hne]

/-- C4 (witness for the amended theorem): a non-R12 processor holding one
unknown tag produces a diagnostics call containing that tag. -/
theorem c4_amended_witness :
    ∃ lc ∈ (load_dxf_attribs [] (some ⟨false, [⟨999, .i 7⟩]⟩)).2,
      (⟨999, .i 7⟩ : Tag) ∈ lc.tags ∧ lc.subclass = "AcDbEntity" :=
  c4_amended [] ⟨false, [⟨999, .i 7⟩]⟩ ⟨999, .i 7⟩ rfl
    (List.mem_singleton.mpr rfl) (by decide)

/-! ## Claims about `export_acdb_entity` -/

theorem export_one_none_of_not_found (dxf : DXFNamespace) (v : Nat) (name : String)
    (h : acdb_entity.attribs.find? (fun p => p.1 == name) = none) :
    export_one dxf v name = none := by
  simp [export_one, h]

theorem export_one_code (dxf : DXFNamespace) (v : Nat) (name : String) (t : Tag)
    (nv : String × DXFAttr)
    (hf : acdb_entity.attribs.find? (fun p => p.1 == name) = some nv)
    (he : export_one dxf v name = some t) : t.code = nv.2.code := by
  simp only [export_one, hf] at he
  by_cases hv : v < nv.2.dxfversion
  · rw [if_pos hv] at he; cases he
  · rw [if_neg hv] at he
    cases hg : ns_get? dxf name with
    | some w => rw [hg] at he; cases he; rfl
    | none =>
        rw [hg] at he
        cases ho : nv.2.optional with
        | true => simp [ho] at he
        | false =>
            simp only [ho, Bool.false_eq_true, if_false] at he
            cases hd : nv.2.default with
            | none => rw [hd] at he; cases he
            | some d => rw [hd] at he; cases he; rfl

theorem export_codes_sublist (dxf : DXFNamespace) (v : Nat) (names : List String) :
    List.Sublist ((names.filterMap (export_one dxf v)).map Tag.code)
      (names.filterMap (fun n =>
        (acdb_entity.attribs.find? (fun p => p.1 == n)).map (fun nv => nv.2.code))) := by
  induction names with
  | nil => simp
  | cons n ns ih =>
      cases hf : acdb_entity.attribs.find? (fun p => p.1 == n) with
      | none =>
          have he := export_one_none_of_not_found dxf v n hf
          simp only [List.filterMap_cons, hf, he, Option.map_none']
          exact ih
      | some nv =>
          cases he : export_one dxf v n with
          | none =>
              simp only [List.filterMap_cons, hf, he, Option.map_some']
              exact List.Sublist.cons _ ih
          | some t =>
              have hcode := export_one_code dxf v n t nv hf he
              simp only [List.filterMap_cons, hf, he, Option.map_some',
                List.map_cons, hcode]
              exact List.Sublist.cons₂ _ ih

/-- C5 (counterexample): with every `AcDbEntity` attribute present and
target version DXF2007, the attribute tags after the subclass marker are
NOT in the registry's declared order (the emitted group-code sequence is
not a subsequence of the declared sequence: `material_handle`, code 347, is
emitted before `color`, code 62, while the registry declares 62 before
347); moreover `invisible` (code 60) is present, version-admissible and not
optional-absent, yet never emitted. -/
theorem c5_counterexample :
    ¬ List.Sublist
        (((export_acdb_entity
            [("layer", .s "L"), ("linetype", .s "DASHED"), ("color", .i 1),
             ("paperspace", .i 1), ("lineweight", .i 13), ("ltscale", .i 2),
             ("invisible", .i 1), ("true_color", .i 5), ("color_name", .s "c"),
             ("transparency", .i 3), ("shadow_mode", .i 1),
             ("material_handle", .s "m"), ("plotstyle_handle", .s "p")]
            DXF2007).drop 1).map Tag.code)
        (acdb_entity.attribs.map (fun p => p.2.code))
    ∧ (export_acdb_entity
          [("layer", .s "L"), ("linetype", .s "DASHED"), ("color", .i 1),
           ("paperspace", .i 1), ("lineweight", .i 13), ("ltscale", .i 2),
           ("invisible", .i 1), ("true_color", .i 5), ("color_name", .s "c"),
           ("transparency", .i 3), ("shadow_mode", .i 1),
           ("material_handle", .s "m"), ("plotstyle_handle", .s "p")]
          DXF2007).filter (fun t => t.code == 60) = [] := by
  constructor
  · decide
  · rfl

/-- C5 (amended): for target versions beyond DXF12 the export emits exactly
one subclass marker tag `(100, "AcDbEntity")`, as the first tag, before all
attribute tags, and no attribute tag carries the marker code; for DXF12 no
marker is emitted.  The attribute tags follow in the fixed order hard-coded
in `export_acdb_entity` (layer, linetype, material_handle, color,
paperspace, lineweight, ltscale, true_color, color_name, transparency,
plotstyle_handle, shadow_mode — not the registry's declared order, and
`invisible` is never exported here), and an attribute that is optional and
absent, or whose minimum version exceeds the target, is omitted entirely. -/
theorem c5_amended (dxf : DXFNamespace) (v : Nat) :
    (DXF12 < v →
      export_acdb_entity dxf v
        = ⟨SUBCLASS_MARKER, .s "AcDbEntity"⟩ :: export_dxf_attribs dxf v EXPORT_ORDER)
    ∧ (¬ DXF12 < v →
      export_acdb_entity dxf v = export_dxf_attribs dxf v EXPORT_ORDER)
    ∧ List.Sublist ((export_dxf_attribs dxf v EXPORT_ORDER).map Tag.code)
        [8, 6, 347, 62, 67, 370, 48, 420, 430, 440, 390, 284]
    ∧ (∀ t ∈ export_dxf_attribs dxf v EXPORT_ORDER, t.code ≠ SUBCLASS_MARKER)
    ∧ (∀ name nv, acdb_entity.attribs.find? (fun p => p.1 == name) = some nv →
        ((nv.2.optional = true ∧ ns_hasattr dxf name = false) ∨ v < nv.2.dxfversion) →
        export_one dxf v name = none) := by
  have hsub : List.Sublist ((export_dxf_attribs dxf v EXPORT_ORDER).map Tag.code)
      [8, 6, 347, 62, 67, 370, 48, 420, 430, 440, 390, 284] := by
    have hs := export_codes_sublist dxf v EXPORT_ORDER
    have hE : EXPORT_ORDER.filterMap (fun n =>
        (acdb_entity.attribs.find? (fun p => p.1 == n)).map (fun nv => nv.2.code))
        = [8, 6, 347, 62, 67, 370, 48, 420, 430, 440, 390, 284] := by decide
    rw [hE] at hs
    exact hs
  refine ⟨?_, ?_, hsub, ?_, ?_⟩
  · intro h
    simp [export_acdb_entity, h, acdb_entity]
  · intro h
    simp [export_acdb_entity, h]
  · intro t htm heq
    have hmem : t.code ∈ [8, 6, 347, 62, 67, 370, 48, 420, 430, 440, 390, 284] :=
      hsub.subset (List.mem_map_of_mem Tag.code htm)
    rw [heq] at hmem
    simp [SUBCLASS_MARKER] at hmem
  · intro name nv hf hcase
    by_cases hv : v < nv.2.dxfversion
    · simp only [export_one, hf]
      rw [if_pos hv]
    · rcases hcase with ⟨ho, hh⟩ | hv'
      · simp only [export_one, hf]
        rw [if_neg hv]
        cases hg : ns_get? dxf name with
        | some w => simp [ns_hasattr, hg] at hh
        | none => simp [ho]
      · exact absurd hv' hv

/-- C5 (witness for the amended theorem): on an empty namespace at DXF2000
the marker leads the output, and the optional absent `transparency`
attribute is not exported. -/
theorem c5_amended_witness :
    export_acdb_entity [] DXF2000
      = ⟨SUBCLASS_MARKER, .s "AcDbEntity"⟩ :: export_dxf_attribs [] DXF2000 EXPORT_ORDER
    ∧ export_one [] DXF2000 "transparency" = none :=
  ⟨(c5_amended [] DXF2000).1 (by decide),
   (c5_amended [] DXF2000).2.2.2.2 "transparency"
     ("transparency", { code := 440, optional := true, dxfversion := DXF2004 })
     (by decide) (Or.inr (by decide))⟩

end Ezdxf
